import Mathlib

/-!
Verification of the streaming reassembly and request orchestration logic of
the asteroid composition analysis backend (src/backend/main.py).

Modelling conventions:
* Python `str` values are Lean `String`s.  The Python string operations used
  by the source (`split("\n")`, `strip()`, `startswith`, `endswith`, slicing
  `line[5:]`) are modelled by character-level functions over `String.data`
  (`splitNl`, `strip`, `pyStartsWith`, `pyEndsWith`, `pyDrop`), so that every
  definition evaluates inside the kernel.
* `json.loads` is modelled by `jsonLoads`, an executable recursive-descent
  parser producing the `Json` type (floating point numbers and `\u` escapes
  are not modelled; such payloads count as unparseable).  `json.dumps` is
  modelled by `jsonDumps` with Python's default separators.
* Python attribute/subscript errors raised by the extraction chain
  `data.get("choices", [...])[0].get(...)` are modelled explicitly by
  `Except String` values whose error string names the Python exception.
* The asynchronous generator `generate_streaming_response` is modelled as a
  function from an upstream behaviour (either an HTTP status error raised by
  `raise_for_status`, or a list of delivered byte chunks optionally followed
  by a transport failure) to the list of server-sent event blocks it yields;
  the byte stream seen by the caller is the concatenation of that list.
* Numeric asteroid attributes (albedo, magnitude, ...) are modelled by the
  decimal renderings interpolated into the prompt, as the code never computes
  with them.  The float temperature 0.7 is likewise carried as its rendering.
-/

namespace AsteroidAPI

/-! ## Character-level models of the Python string operations -/

/-- Whitespace test matching the characters Python's `str.strip` removes for
the ASCII inputs handled here. -/
def isWsChar (c : Char) : Bool :=
  c == ' ' || c == '\t' || c == '\n' || c == '\r' || c == '\x0b' || c == '\x0c'

/-- Model of Python `str.strip()` on the character list. -/
def stripChars (l : List Char) : List Char :=
  ((l.dropWhile isWsChar).reverse.dropWhile isWsChar).reverse

/-- Model of Python `str.strip()`. -/
def strip (s : String) : String :=
  String.mk (stripChars s.data)

/-- Model of Python `s.startswith(pre)`. -/
def pyStartsWith (s pre : String) : Bool :=
  pre.data.isPrefixOf s.data

/-- Model of Python `s.endswith(suf)`. -/
def pyEndsWith (s suf : String) : Bool :=
  suf.data.isSuffixOf s.data

/-- Model of Python slicing `s[n:]`. -/
def pyDrop (s : String) (n : Nat) : String :=
  String.mk (s.data.drop n)

/-- Model of Python `pat in s` (substring containment). -/
def hasSubstr (pat : String) : List Char → Bool
  | [] => pat.data.isPrefixOf []
  | c :: rest => pat.data.isPrefixOf (c :: rest) || hasSubstr pat rest

/-- Prepend a character to the first piece of a split result. -/
def consHead (c : Char) : List (List Char) → List (List Char)
  | [] => [[c]]
  | l :: ls => (c :: l) :: ls

/-- Model of Python `s.split("\n")` on character lists: the result is the
maximal newline-free pieces, always non-empty, with the final piece being the
trailing not-yet-terminated segment. -/
def splitNlChars : List Char → List (List Char)
  | [] => [[]]
  | c :: cs => if c = '\n' then [] :: splitNlChars cs else consHead c (splitNlChars cs)

/-- Model of Python `s.split("\n")`. -/
def splitNl (s : String) : List String :=
  (splitNlChars s.data).map (fun l => String.mk l)

/-- Concatenation of a list of strings (used to describe a logical line
delivered as several transport fragments). -/
def joinStr : List String → String
  | [] => ""
  | s :: rest => s ++ joinStr rest

/-! ## The JSON value model, `json.loads` and `json.dumps` -/

/-- JSON values as produced by `json.loads` (numbers restricted to integers,
which is all the verified code paths ever exercise). -/
inductive Json where
  | null : Json
  | bool (b : Bool) : Json
  | num (n : Int) : Json
  | str (s : String) : Json
  | arr (elems : List Json) : Json
  | obj (fields : List (String × Json)) : Json

def skipWs : List Char → List Char
  | [] => []
  | c :: cs => if isWsChar c then skipWs cs else c :: cs

/-- JSON string escape sequences accepted by the parser. -/
def escChar (e : Char) : Option Char :=
  if e = '"' then some '"'
  else if e = '\\' then some '\\'
  else if e = '/' then some '/'
  else if e = 'n' then some '\n'
  else if e = 't' then some '\t'
  else if e = 'r' then some '\r'
  else if e = 'b' then some '\x08'
  else if e = 'f' then some '\x0c'
  else none

/-- Parse the body of a JSON string literal (after the opening quote),
returning the decoded characters and the input following the closing quote. -/
def parseStringBody : List Char → Option (List Char × List Char)
  | [] => none
  | '"' :: rest => some ([], rest)
  | '\\' :: e :: rest =>
    match escChar e with
    | none => none
    | some c =>
      match parseStringBody rest with
      | none => none
      | some (s, r) => some (c :: s, r)
  | ['\\'] => none
  | c :: rest =>
    match parseStringBody rest with
    | none => none
    | some (s, r) => some (c :: s, r)

def takeDigits : List Char → List Char × List Char
  | [] => ([], [])
  | c :: rest =>
    if c.isDigit then
      let (d, r) := takeDigits rest
      (c :: d, r)
    else ([], c :: rest)

def digitsToNat (l : List Char) : Nat :=
  l.foldl (fun acc c => acc * 10 + (c.toNat - 48)) 0

/-- Fuel-bounded recursive-descent JSON parser.  A list continuation
`", rest"` is parsed by re-entering the parser behind a synthetic opening
bracket, which keeps the recursion structural in the fuel. -/
def parseValue : Nat → List Char → Option (Json × List Char)
  | 0, _ => none
  | fuel + 1, l =>
    match skipWs l with
    | [] => none
    | c :: cs =>
      if c = '"' then
        match parseStringBody cs with
        | none => none
        | some (s, r) => some (.str (String.mk s), r)
      else if c = '[' then
        match skipWs cs with
        | ']' :: r => some (.arr [], r)
        | l' =>
          match parseValue fuel l' with
          | none => none
          | some (v, r) =>
            match skipWs r with
            | ',' :: r2 =>
              match parseValue fuel ('[' :: r2) with
              | some (.arr vs, r3) => some (.arr (v :: vs), r3)
              | _ => none
            | ']' :: r2 => some (.arr [v], r2)
            | _ => none
      else if c = '\x7b' then
        match skipWs cs with
        | '\x7d' :: r => some (.obj [], r)
        | '"' :: r =>
          match parseStringBody r with
          | none => none
          | some (k, r1) =>
            match skipWs r1 with
            | ':' :: r2 =>
              match parseValue fuel r2 with
              | none => none
              | some (v, r3) =>
                match skipWs r3 with
                | ',' :: r4 =>
                  match parseValue fuel ('\x7b' :: r4) with
                  | some (.obj fs, r5) => some (.obj ((String.mk k, v) :: fs), r5)
                  | _ => none
                | '\x7d' :: r4 => some (.obj [(String.mk k, v)], r4)
                | _ => none
            | _ => none
        | _ => none
      else if c = 't' then
        if ['r', 'u', 'e'].isPrefixOf cs then some (.bool true, cs.drop 3) else none
      else if c = 'f' then
        if ['a', 'l', 's', 'e'].isPrefixOf cs then some (.bool false, cs.drop 4) else none
      else if c = 'n' then
        if ['u', 'l', 'l'].isPrefixOf cs then some (.null, cs.drop 3) else none
      else if c = '-' then
        match takeDigits cs with
        | ([], _) => none
        | (ds, r) => some (.num (-(digitsToNat ds : Int)), r)
      else if c.isDigit then
        match takeDigits (c :: cs) with
        | (ds, r) => some (.num (digitsToNat ds), r)
      else none

/-- Model of `json.loads`: parse a complete JSON document, failing (like the
`json.JSONDecodeError` path in the source) when the text is not a single
well-formed value. -/
def jsonLoads (s : String) : Option Json :=
  match parseValue (2 * s.data.length + 4) s.data with
  | some (v, rest) => if skipWs rest = [] then some v else none
  | none => none

def jsonEscapeChar (c : Char) : List Char :=
  if c = '"' then ['\\', '"']
  else if c = '\\' then ['\\', '\\']
  else if c = '\n' then ['\\', 'n']
  else if c = '\t' then ['\\', 't']
  else if c = '\r' then ['\\', 'r']
  else [c]

/-- Model of `json.dumps` on a string (Python's default escaping, restricted
to the escapes the verified inputs exercise). -/
def jsonDumpString (s : String) : String :=
  "\"" ++ String.mk (List.flatten (s.data.map jsonEscapeChar)) ++ "\""

mutual
/-- Model of `json.dumps` with Python's default separators. -/
def jsonDumps : Json → String
  | .null => "null"
  | .bool true => "true"
  | .bool false => "false"
  | .num n => toString n
  | .str s => jsonDumpString s
  | .arr l => "[" ++ jsonDumpsList l ++ "]"
  | .obj l => "\x7b" ++ jsonDumpsFields l ++ "\x7d"

def jsonDumpsList : List Json → String
  | [] => ""
  | [x] => jsonDumps x
  | x :: y :: xs => jsonDumps x ++ ", " ++ jsonDumpsList (y :: xs)

def jsonDumpsFields : List (String × Json) → String
  | [] => ""
  | [(k, v)] => jsonDumpString k ++ ": " ++ jsonDumps v
  | (k, v) :: p :: xs => jsonDumpString k ++ ": " ++ jsonDumps v ++ ", " ++ jsonDumpsFields (p :: xs)
end

/-! ## Python dictionary/list access used by the extraction chains -/

/-- Model of Python `x.get(key, default)`: succeeds on a dict, raises
`AttributeError` on any other value. -/
def pyGet (v : Json) (key : String) (dflt : Json) : Except String Json :=
  match v with
  | .obj fields =>
    match fields.lookup key with
    | some w => .ok w
    | none => .ok dflt
  | _ => .error "AttributeError"

/-- Model of Python `x[0]`: first element of a list or string, `IndexError`
when empty, `KeyError` on a dict without key `0`, `TypeError` otherwise. -/
def pyIndexZero (v : Json) : Except String Json :=
  match v with
  | .arr [] => .error "IndexError"
  | .arr (x :: _) => .ok x
  | .str s =>
    match s.data with
    | [] => .error "IndexError"
    | c :: _ => .ok (.str (String.mk [c]))
  | .obj _ => .error "KeyError"
  | _ => .error "TypeError"

/-- Model of Python truthiness on JSON values. -/
def pyTruthy : Json → Bool
  | .null => false
  | .bool b => b
  | .num n => n != 0
  | .str s => s != ""
  | .arr l => !l.isEmpty
  | .obj l => !l.isEmpty

/-- The extraction chain of `_process_stream_chunk` (main.py lines 209-213):
`chunk_data.get("choices", [...])[0].get("delta", ...).get("content", "")`,
with the Python exceptions it can raise made explicit. -/
def extractDeltaContent (chunk_data : Json) : Except String Json := do
  let choices ← pyGet chunk_data "choices" (.arr [.obj []])
  let first ← pyIndexZero choices
  let delta ← pyGet first "delta" (.obj [])
  pyGet delta "content" (.str "")

/-- The extraction chain of the buffered branch of `analyze_composition`
(main.py lines 342-346): `choices[0].message.content` with defaults. -/
def extract_message_content (response_data : Json) : Except String Json := do
  let choices ← pyGet response_data "choices" (.arr [.obj []])
  let first ← pyIndexZero choices
  let message ← pyGet first "message" (.obj [])
  pyGet message "content" (.str "")

/-! ## Model configuration constants (main.py lines 70-73) -/

def DEFAULT_MODEL : String := "google/gemini-2.0-flash-exp:free"
def ADVANCED_MODEL : String := "anthropic/claude-3.5-sonnet:beta"
def FALLBACK_MODEL : String := "meta-llama/llama-3.2-3b-instruct:free"
def MAX_TOKENS : Nat := 2500

/-! ## The stream reassembler (main.py lines 197-260) -/

/-- The terminal sentinel line `data: [DONE]` compared against by the
reassembler. -/
def sentinel : String := "data: [DONE]"

/-- The terminal server-sent event block appended for the sentinel (and
synthesised at end of stream). -/
def doneEvent : String := "data: [DONE]\n\n"

/-- The event block re-emitted for a content delta:
`f"data: \x7bjson.dumps(\x7b'content': content\x7d)\x7d\n\n"`. -/
def contentEvent (content : Json) : String :=
  "data: " ++ jsonDumps (.obj [("content", content)]) ++ "\n\n"

/-- The event block yielded by the exception handlers of
`generate_streaming_response`. -/
def errorEvent (msg : String) : String :=
  "data: " ++ jsonDumps (.obj [("error", .str msg)]) ++ "\n\n"

/-- Outcome of processing one complete line inside `_process_stream_chunk`:
either an event block is appended, nothing happens, the sentinel is found
(the source then appends the terminal block and executes `break`), or a
Python exception escapes the uncaught extraction chain. -/
inductive LineResult where
  | emit (event : String)
  | skip
  | done
  | raise (exc : String)
  deriving DecidableEq

def LineResult.isDone : LineResult → Bool
  | .done => true
  | _ => false

def LineResult.isRaise : LineResult → Bool
  | .raise _ => true
  | _ => false

/-- One iteration of the `for line in lines[:-1]` loop of
`_process_stream_chunk` (main.py lines 203-221).  Only
`json.JSONDecodeError` is caught; exceptions from the extraction chain
escape as `.raise`. -/
def processLine (line : String) : LineResult :=
  if pyStartsWith line "data:" && strip line != sentinel then
    if strip (pyDrop line 5) == "" then .skip
    else
      match jsonLoads (strip (pyDrop line 5)) with
      | none => .skip
      | some chunk_data =>
        match extractDeltaContent chunk_data with
        | .error e => .raise e
        | .ok content =>
          if pyTruthy content then .emit (contentEvent content) else .skip
  else if strip line == sentinel then .done
  else .skip

/-- The complete-line loop of `_process_stream_chunk`: the list of event
blocks appended to `processed_data`, honouring the `break` after the
sentinel; a raised exception discards the blocks accumulated for this
chunk, exactly as the exception escapes before the function returns. -/
def processLines : List String → Except String (List String)
  | [] => .ok []
  | line :: rest =>
    match processLine line with
    | .skip => processLines rest
    | .emit ev =>
      match processLines rest with
      | .error e => .error e
      | .ok evs => .ok (ev :: evs)
    | .done => .ok [doneEvent]
    | .raise e => .error e

/-- Model of `_process_stream_chunk(chunk, buffer)` (main.py lines 197-222):
append the chunk to the carry-over buffer, split on newlines, keep the last
piece as the new buffer, process every other line.  The returned event-block
list concatenates to the `processed_data` string of the source. -/
def process_stream_chunk (chunk buffer : String) : Except String (List String × String) :=
  match processLines (splitNl (buffer ++ chunk)).dropLast with
  | .error e => .error e
  | .ok evs => .ok (evs, (splitNl (buffer ++ chunk)).getLastD "")

/-- The `async for chunk in response.aiter_bytes()` loop of
`generate_streaming_response` (main.py lines 236-243): whitespace-only
chunks are skipped entirely; a Python exception escaping
`_process_stream_chunk` aborts the loop.  Returns the yielded event blocks,
the final carry-over buffer and the escaped exception, if any. -/
def streamLoop : List String → String → List String × String × Option String
  | [], buffer => ([], buffer, none)
  | chunk :: rest, buffer =>
    if strip chunk = "" then streamLoop rest buffer
    else
      match process_stream_chunk chunk buffer with
      | .error e => ([], buffer, some e)
      | .ok (evs, buffer') =>
        match streamLoop rest buffer' with
        | (evs2, bufferF, exc) => (evs ++ evs2, bufferF, exc)

/-- The behaviour of the upstream transport during one streaming call:
either `raise_for_status` raises (non-2xx status with the given body text),
or a list of chunks is delivered followed by a clean close or a transport
failure. -/
inductive UpstreamBehavior where
  | statusError (status : Nat) (body : String)
  | stream (chunks : List String) (transportFailure : Option String)

/-- Model of `generate_streaming_response` (main.py lines 225-260) as the
sequence of server-sent event blocks yielded to the caller; the byte stream
the caller observes is their concatenation.  Covers the happy path with the
end-of-stream `[DONE]` synthesis guard, the `httpx.HTTPStatusError` handler
and the generic `Exception` handler (which also catches exceptions escaping
`_process_stream_chunk`). -/
def gen_events : UpstreamBehavior → List String
  | .statusError status body =>
    [errorEvent ("OpenRouter API error (" ++ toString status ++ "): " ++
       (if body = "" then "Status " ++ toString status else body)),
     doneEvent]
  | .stream chunks transportFailure =>
    match streamLoop chunks "" with
    | (evs, _, some e) => evs ++ [errorEvent ("Unexpected error: " ++ e), doneEvent]
    | (evs, buffer, none) =>
      match transportFailure with
      | some e => evs ++ [errorEvent ("Unexpected error: " ++ e), doneEvent]
      | none =>
        evs ++ (if pyEndsWith (strip buffer) "[DONE]" then [] else [doneEvent])

/-- The byte stream delivered to the caller of a streaming call. -/
def streamOutput (b : UpstreamBehavior) : String :=
  joinStr (gen_events b)

/-! ## The prompt builder and request assembler (main.py lines 107-194) -/

/-- The request's asteroid record (main.py lines 79-92).  Numeric attributes
carry the decimal rendering Python would interpolate, since the code only
ever interpolates them into the prompt. -/
structure AsteroidData where
  name : String
  id : String
  spectral_type : Option String
  albedo : Option String
  absolute_magnitude : Option String
  estimated_diameter_km : Option String
  orbital_period_days : Option String
  semi_major_axis_au : Option String
  eccentricity : Option String
  inclination_deg : Option String
  additional_data : Option (List (String × String))

/-- Truthiness of an optional string field (Python: `None` and `""` are
falsy). -/
def optStrTruthy : Option String → Bool
  | none => false
  | some s => s != ""

/-- Truthiness of the optional `additional_data` dict (Python: `None` and
`\x7b\x7d` are falsy). -/
def optDictTruthy : Option (List (String × String)) → Bool
  | none => false
  | some l => !l.isEmpty

/-- Model of `build_composition_prompt` (main.py lines 107-150). -/
def build_composition_prompt (asteroid : AsteroidData) : String :=
  let p := "You are an expert planetary scientist specializing in asteroid composition analysis.\n\nAnalyze the following asteroid data and provide a detailed composition estimate:\n\nAsteroid Name: " ++ asteroid.name ++ "\nAsteroid ID: " ++ asteroid.id ++ "\n"
  let p := if optStrTruthy asteroid.spectral_type then
      p ++ "Spectral Type: " ++ asteroid.spectral_type.getD "" ++ "\n" else p
  let p := match asteroid.albedo with
    | some v => p ++ "Albedo: " ++ v ++ "\n"
    | none => p
  let p := match asteroid.absolute_magnitude with
    | some v => p ++ "Absolute Magnitude (H): " ++ v ++ "\n"
    | none => p
  let p := match asteroid.estimated_diameter_km with
    | some v => p ++ "Estimated Diameter: " ++ v ++ " km\n"
    | none => p
  let p := match asteroid.orbital_period_days with
    | some v => p ++ "Orbital Period: " ++ v ++ " days\n"
    | none => p
  let p := match asteroid.semi_major_axis_au with
    | some v => p ++ "Semi-major Axis: " ++ v ++ " AU\n"
    | none => p
  let p := match asteroid.eccentricity with
    | some v => p ++ "Eccentricity: " ++ v ++ "\n"
    | none => p
  let p := match asteroid.inclination_deg with
    | some v => p ++ "Inclination: " ++ v ++ "Â°\n"
    | none => p
  let p := if optDictTruthy asteroid.additional_data then
      p ++ "\nAdditional Data:\n" ++
        joinStr (((asteroid.additional_data.getD []).map
          (fun kv => "  " ++ kv.1 ++ ": " ++ kv.2 ++ "\n")))
    else p
  p ++ "\nBased on this data, provide:\n1. **Primary Composition**: What minerals and materials are most likely present\n2. **Spectral Class Analysis**: Detailed interpretation of the spectral type (if provided)\n3. **Surface Characteristics**: Expected surface features and properties\n4. **Formation History**: Likely formation environment and evolution\n5. **Comparison**: How this asteroid compares to known asteroid families\n6. **Scientific Value**: Potential research or resource value\n\nFormat your response in clear sections with detailed explanations based on current planetary science knowledge.\n"

/-- Model of `get_system_prompt` (main.py lines 153-167). -/
def get_system_prompt : String :=
  "You are an expert planetary scientist with deep knowledge of:\n- Asteroid spectral classification (C, S, M, X-type asteroids and subtypes)\n- Mineralogical composition analysis\n- Photometric properties and their implications\n- Orbital dynamics and asteroid families\n- Meteorite analogs and composition\n- Space weathering effects\n- Asteroid formation and evolution\n\nProvide scientifically accurate, detailed analysis based on the available data. \nWhen spectral type is available, use it as the primary indicator for composition.\nExplain your reasoning and cite relevant asteroid families or well-studied examples when applicable.\nBe specific about confidence levels and acknowledge uncertainties where appropriate."

/-- The outbound OpenRouter payload (main.py lines 174-184); the float
temperature 0.7 is carried as its rendering. -/
structure UpstreamPayload where
  model : String
  models : List String
  messages : List (String × String)
  max_tokens : Nat
  temperature : String
  stream : Bool

/-- Model of `_prepare_request_payload` (main.py lines 170-184). -/
def prepare_request_payload (model system_prompt user_prompt : String) (stream : Bool) :
    UpstreamPayload :=
  { model := model
    models := [model, FALLBACK_MODEL]
    messages := [("system", system_prompt), ("user", user_prompt)]
    max_tokens := MAX_TOKENS
    temperature := "0.7"
    stream := stream }

/-! ## The request orchestrator `analyze_composition` (main.py lines 296-365) -/

structure CompositionRequest where
  asteroid : AsteroidData
  use_streaming : Bool

/-- The upstream response observed by the buffered (non-streaming) branch:
HTTP status, the JSON value of the body if `response.json()` succeeds, and
the raw body text used in error details. -/
structure BufferedResponse where
  status : Nat
  bodyJson : Option Json
  bodyText : String

structure HTTPExceptionModel where
  status_code : Nat
  detail : String

structure AnalysisResult where
  asteroid_name : String
  asteroid_id : String
  analysis : Json
  model_used : String

/-- The caller-visible outcome of `analyze_composition`: a streaming
response built from the payload, a buffered result record, or an
`HTTPException`. -/
inductive AnalyzeOutcome where
  | streaming (payload : UpstreamPayload)
  | result (r : AnalysisResult)
  | httpError (e : HTTPExceptionModel)

/-- The model selection branch of `analyze_composition` (main.py lines
305-307): `ADVANCED_MODEL if request.asteroid.spectral_type else
DEFAULT_MODEL`. -/
def select_model (asteroid : AsteroidData) : String :=
  if optStrTruthy asteroid.spectral_type then ADVANCED_MODEL else DEFAULT_MODEL

/-- Model of the `/analyze` endpoint `analyze_composition` (main.py lines
296-365).  `apiKeyConfigured` reflects the module-level credential check;
`upstream` is the buffered-mode response (unused when streaming).
`raise_for_status` raises `httpx.HTTPStatusError` exactly on non-2xx
statuses; a body that is not JSON, and any exception escaping the content
extraction, fall into the generic `except Exception` handler (status 500). -/
def analyze_composition (request : CompositionRequest) (apiKeyConfigured : Bool)
    (upstream : BufferedResponse) : AnalyzeOutcome :=
  if !apiKeyConfigured then
    .httpError { status_code := 500, detail := "OpenRouter API key is not configured." }
  else
    let selected_model := select_model request.asteroid
    let system_prompt := get_system_prompt
    let user_prompt := build_composition_prompt request.asteroid
    let json_data := prepare_request_payload selected_model system_prompt user_prompt
      request.use_streaming
    if request.use_streaming then .streaming json_data
    else if upstream.status < 200 || 300 <= upstream.status then
      .httpError { status_code := upstream.status
                   detail := "OpenRouter API error: " ++ upstream.bodyText }
    else
      match upstream.bodyJson with
      | none =>
        .httpError { status_code := 500
                     detail := "An unexpected error occurred: JSONDecodeError" }
      | some response_data =>
        match extract_message_content response_data with
        | .error e =>
          .httpError { status_code := 500, detail := "An unexpected error occurred: " ++ e }
        | .ok content =>
          .result { asteroid_name := request.asteroid.name
                    asteroid_id := request.asteroid.id
                    analysis := content
                    model_used := selected_model }

/-! ## Distinguished upstream behaviours and sample inputs -/

/-- A failing streaming call: either `raise_for_status` raised, or a
transport failure followed the delivered chunks, or a Python exception
escaped chunk processing. -/
def hasFailure : UpstreamBehavior → Bool
  | .statusError _ _ => true
  | .stream chunks tf => tf.isSome || (streamLoop chunks "").2.2.isSome

/-- The caller-visible event sequence ends with exactly one error-carrying
event immediately followed by exactly one terminal event: no event before
that pair is an error event. -/
def cleanErrorClose (evs : List String) : Prop :=
  ∃ pre msg, evs = pre ++ [errorEvent msg, doneEvent] ∧
    ∀ x ∈ pre, ∀ m, x ≠ errorEvent m

/-- A minimal asteroid record: identity only, every optional attribute
absent. -/
def plainAsteroid : AsteroidData :=
  ⟨"A", "1", none, none, none, none, none, none, none, none, none⟩

/-- The same record with `spectral_type` present but equal to the empty
string. -/
def emptySpectralAsteroid : AsteroidData :=
  ⟨"A", "1", some "", none, none, none, none, none, none, none, none⟩

/-- A buffered-mode (non-streaming) request for `plainAsteroid`. -/
def plainRequest : CompositionRequest := ⟨plainAsteroid, false⟩

/-! ## Sanity checks of the Python operation models -/

example : splitNl "a\nbc\n" = ["a", "bc", ""] := rfl
example : splitNl "abc" = ["abc"] := rfl
example : splitNl "" = [""] := rfl
example : strip "  a b\n" = "a b" := rfl
example : pyDrop "data: x" 5 = " x" := rfl
example : pyStartsWith "data: x" "data:" = true := rfl
example : pyEndsWith "data: [DONE]" "[DONE]" = true := rfl
example : jsonDumps (.obj [("content", .str "Fe")]) = "\x7b\"content\": \"Fe\"\x7d" := rfl
example : jsonDumps (.str "a\"b\\c\nd") = "\"a\\\"b\\\\c\\nd\"" := rfl
example :
    jsonLoads "\x7b\"choices\":[\x7b\"delta\":\x7b\"content\":\"Fe\"\x7d\x7d]\x7d" =
      some (.obj [("choices", .arr [.obj [("delta", .obj [("content", .str "Fe")])]])]) := rfl
example : jsonLoads "\x7b\"choices\":[\x7b\"del" = none := rfl
example : jsonLoads "[1, -25, true, false, null, \"a\\nb\"]" =
    some (.arr [.num 1, .num (-25), .bool true, .bool false, .null, .str "a\nb"]) := rfl
example : jsonLoads "" = none := rfl

/-! ## Helper lemmas about the string models -/

theorem strExt {a b : String} (h : a.data = b.data) : a = b := by
  cases a; cases b; exact congrArg String.mk h

theorem strData_append (a b : String) : (a ++ b).data = a.data ++ b.data := by
  cases a; cases b; rfl

theorem str_empty_append (s : String) : "" ++ s = s := by
  cases s; rfl

theorem str_append_empty (s : String) : s ++ "" = s := by
  apply strExt
  rw [strData_append]
  simp

theorem str_append_assoc (a b c : String) : a ++ b ++ c = a ++ (b ++ c) := by
  apply strExt
  simp [strData_append]

theorem data_ne_nil_of_ne_empty {s : String} (h : s ≠ "") : s.data ≠ [] := by
  intro hd
  exact h (strExt (by simp [hd]))

theorem joinStr_append (a b : List String) : joinStr (a ++ b) = joinStr a ++ joinStr b := by
  induction a with
  | nil => rw [List.nil_append, joinStr, str_empty_append]
  | cons x xs ih => rw [List.cons_append, joinStr, joinStr, ih, str_append_assoc]

theorem mem_data_joinStr {gs : List String} {f : String} (hf : f ∈ gs) {c : Char}
    (hc : c ∈ f.data) : c ∈ (joinStr gs).data := by
  induction gs with
  | nil => cases hf
  | cons g rest ih =>
    rw [joinStr, strData_append]
    rcases List.mem_cons.mp hf with h | h
    · exact List.mem_append_left _ (h ▸ hc)
    · exact List.mem_append_right _ (ih h)

theorem splitNlChars_no_nl {l : List Char} (h : '\n' ∉ l) : splitNlChars l = [l] := by
  induction l with
  | nil => rfl
  | cons c cs ih =>
    simp only [List.mem_cons, not_or] at h
    rw [splitNlChars, if_neg (fun e => h.1 e.symm), ih h.2]
    rfl

theorem splitNlChars_append_nl {a : List Char} (h : '\n' ∉ a) (b : List Char) :
    splitNlChars (a ++ '\n' :: b) = a :: splitNlChars b := by
  induction a with
  | nil => rw [List.nil_append, splitNlChars, if_pos rfl]
  | cons c cs ih =>
    simp only [List.mem_cons, not_or] at h
    rw [List.cons_append, splitNlChars, if_neg (fun e => h.1 e.symm), ih h.2]
    rfl

theorem splitNl_no_nl {s : String} (h : '\n' ∉ s.data) : splitNl s = [s] := by
  unfold splitNl
  rw [splitNlChars_no_nl h]
  rfl

/-! ## Helper lemmas about the stream reassembler -/

theorem process_stream_chunk_congr {c b c' b' : String} (h : b ++ c = b' ++ c') :
    process_stream_chunk c b = process_stream_chunk c' b' := by
  unfold process_stream_chunk
  rw [h]

theorem process_stream_chunk_no_nl {f buffer : String}
    (h : '\n' ∉ (buffer ++ f).data) :
    process_stream_chunk f buffer = .ok ([], buffer ++ f) := by
  unfold process_stream_chunk
  rw [splitNl_no_nl h]
  rfl

theorem streamLoop_chunk_no_nl (f : String) (fs : List String) (buffer : String)
    (hnl : '\n' ∉ (buffer ++ f).data) (hs : strip f ≠ "") :
    streamLoop (f :: fs) buffer = streamLoop fs (buffer ++ f) := by
  rw [streamLoop, if_neg hs, process_stream_chunk_no_nl hnl]
  simp

theorem streamLoop_accum : ∀ (gs fs : List String) (buffer : String),
    '\n' ∉ buffer.data → (∀ f ∈ gs, '\n' ∉ f.data ∧ strip f ≠ "") →
    streamLoop (gs ++ fs) buffer = streamLoop fs (buffer ++ joinStr gs)
  | [], fs, buffer, _, _ => by rw [List.nil_append, joinStr, str_append_empty]
  | g :: gs', fs, buffer, hb, h => by
    obtain ⟨hg1, hg2⟩ := h g (List.mem_cons_self g gs')
    have hnl : '\n' ∉ (buffer ++ g).data := by
      rw [strData_append]
      intro hm
      rcases List.mem_append.mp hm with hm | hm
      · exact hb hm
      · exact hg1 hm
    rw [List.cons_append, streamLoop_chunk_no_nl g (gs' ++ fs) buffer hnl hg2,
        streamLoop_accum gs' fs (buffer ++ g) hnl
          (fun f hf => h f (List.mem_cons_of_mem _ hf)),
        joinStr, ← str_append_assoc]

theorem processLine_emit {line ev : String} (h : processLine line = .emit ev) :
    ∃ c, ev = contentEvent c := by
  unfold processLine at h
  split at h
  · split at h
    · exact absurd h (by simp)
    · split at h
      · exact absurd h (by simp)
      · split at h
        · exact absurd h (by simp)
        · split at h
          · exact ⟨_, (LineResult.emit.inj h).symm⟩
          · exact absurd h (by simp)
  · split at h
    · exact absurd h (by simp)
    · exact absurd h (by simp)

theorem processLines_shape : ∀ {lines evs}, processLines lines = .ok evs →
    ∀ x ∈ evs, (∃ c, x = contentEvent c) ∨ x = doneEvent := by
  intro lines
  induction lines with
  | nil =>
    intro evs h x hx
    rw [processLines] at h
    cases h
    cases hx
  | cons l rest ih =>
    intro evs h x hx
    rw [processLines] at h
    cases hpl : processLine l <;> rw [hpl] at h
    · cases hrest : processLines rest <;> rw [hrest] at h
      · cases h
      · cases h
        rcases List.mem_cons.mp hx with hx | hx
        · exact Or.inl (hx ▸ processLine_emit hpl)
        · exact ih hrest x hx
    · exact ih h x hx
    · cases h
      rcases List.mem_cons.mp hx with hx | hx
      · exact Or.inr hx
      · cases hx
    · cases h

theorem process_stream_chunk_ok_shape {chunk buffer : String} {evs : List String}
    {b' : String} (h : process_stream_chunk chunk buffer = .ok (evs, b')) :
    ∀ x ∈ evs, (∃ c, x = contentEvent c) ∨ x = doneEvent := by
  unfold process_stream_chunk at h
  cases hpl : processLines (splitNl (buffer ++ chunk)).dropLast <;> rw [hpl] at h
  · cases h
  · cases h
    exact processLines_shape hpl

theorem streamLoop_shape : ∀ (chunks : List String) (buffer : String),
    ∀ x ∈ (streamLoop chunks buffer).1, (∃ c, x = contentEvent c) ∨ x = doneEvent
  | [], buffer => by intro x hx; cases hx
  | chunk :: rest, buffer => by
    intro x hx
    rw [streamLoop] at hx
    split at hx
    · exact streamLoop_shape rest buffer x hx
    · split at hx
      · cases hx
      · rename_i evs buffer' heq
        rcases List.mem_append.mp hx with hx | hx
        · exact process_stream_chunk_ok_shape heq x hx
        · exact streamLoop_shape rest buffer' x hx

theorem contentEvent_ne_errorEvent (c : Json) (m : String) :
    contentEvent c ≠ errorEvent m := by
  intro h
  have h1 : (contentEvent c).data[8]? = some 'c' := rfl
  have h2 : (errorEvent m).data[8]? = some 'e' := rfl
  rw [h, h2] at h1
  exact absurd h1 (by decide)

theorem doneEvent_ne_errorEvent (m : String) : doneEvent ≠ errorEvent m := by
  intro h
  have h1 : (doneEvent).data[6]? = some '[' := rfl
  have h2 : (errorEvent m).data[6]? = some '\x7b' := rfl
  rw [h, h2] at h1
  exact absurd h1 (by decide)

/-! ## Claim C1 -/

/-- C1: the claim states the terminal event is emitted exactly once per call
and that the spec's example fragment pair yields exactly two events (the
content event for "Fe", then one terminal marker).  The code violates this:
its end-of-stream guard inspects the carry-over buffer instead of the last
emitted event, and after a newline-terminated sentinel the buffer is empty,
so a second terminal block is synthesised.  This theorem evaluates the model
of `generate_streaming_response` at exactly the spec's example fragments and
shows the output is three events with a duplicated terminal marker. -/
theorem c1_example_emits_duplicate_terminal :
    gen_events (.stream ["data: \x7b\"choices\":[\x7b\"del",
        "ta\":\x7b\"content\":\"Fe\"\x7d\x7d]\x7d\ndata: [DONE]\n"] none) =
      [contentEvent (.str "Fe"), doneEvent, doneEvent] := by
  decide

/-! ## Claim C2 -/

/-- C2 counterexample: the claim states that after a sentinel line the call
emits no further content, error or terminal events.  Delivering the sentinel
in one fragment and a well-formed content record in the next fragment makes
the code emit a content event and a second terminal event after the first
terminal event, refuting the claim at a concrete input. -/
theorem c2_counterexample :
    gen_events (.stream ["data: [DONE]\n",
        "data: \x7b\"choices\":[\x7b\"delta\":\x7b\"content\":\"X\"\x7d\x7d]\x7d\n"] none) =
      [doneEvent, contentEvent (.str "X"), doneEvent] ∧
    contentEvent (.str "X") ≠ doneEvent := by
  exact ⟨by decide, by decide⟩

/-- C2 amended: once the sentinel line is encountered, the remaining
complete lines of the same fragment are not processed (the `break` in
`_process_stream_chunk`); the event blocks produced for the fragment are
those of the lines before the sentinel followed by one terminal block,
independently of the lines after the sentinel.  (Subsequent fragments are
still processed, as the counterexample shows.) -/
theorem c2_sentinel_is_final_within_fragment (ls1 ls2 : List String) (l : String)
    (hl : strip l = sentinel) :
    processLines (ls1 ++ l :: ls2) = processLines (ls1 ++ [l]) := by
  induction ls1 with
  | nil =>
    have hd : processLine l = .done := by
      unfold processLine
      rw [hl]
      simp
    rw [List.nil_append, List.nil_append, processLines, processLines, hd]
  | cons x xs ih =>
    rw [List.cons_append, List.cons_append, processLines, processLines]
    cases hx : processLine x with
    | emit ev => rw [ih]
    | skip => exact ih
    | done => rfl
    | raise e => rfl

/-- C2 witness: the amended theorem applied at a concrete fragment whose
lines are a content record, the sentinel, and a further content record. -/
theorem c2_witness :
    strip "data: [DONE]" = sentinel ∧
    processLines (["data: \x7b\"choices\":[\x7b\"delta\":\x7b\"content\":\"Y\"\x7d\x7d]\x7d"] ++
        "data: [DONE]" :: ["data: \x7b\"choices\":[\x7b\"delta\":\x7b\"content\":\"Z\"\x7d\x7d]\x7d"]) =
      processLines (["data: \x7b\"choices\":[\x7b\"delta\":\x7b\"content\":\"Y\"\x7d\x7d]\x7d"] ++
        ["data: [DONE]"]) :=
  ⟨by decide,
    c2_sentinel_is_final_within_fragment _ _ _ (by decide)⟩

/-! ## Claim C4 -/

/-- C4: the claim states that a parsed line with any step of the extraction
path absent — including `choices` present but an empty list — yields zero
events and the stream continues.  The code instead raises `IndexError` on
`.get("choices", [...])[0]` when `choices` is `[]`; the exception escapes
`_process_stream_chunk` (only `json.JSONDecodeError` is caught) and aborts
the stream through the generic handler, which emits an error event and a
terminal event.  This theorem evaluates the code's model at the failing
line. -/
theorem c4_empty_choices_raises :
    processLine "data: \x7b\"choices\":[]\x7d" = .raise "IndexError" ∧
    gen_events (.stream ["data: \x7b\"choices\":[]\x7d\n"] none) =
      [errorEvent "Unexpected error: IndexError", doneEvent] := by
  exact ⟨by decide, by decide⟩

/-! ## Claim C5 -/

/-- C5: a complete data-record line whose payload fails to parse as JSON is
dropped without raising and without emitting an event (the
`json.JSONDecodeError` handler only logs), and all subsequent lines are
processed exactly as if the malformed line were not there. -/
theorem c5_malformed_line_dropped (bad : String)
    (h1 : pyStartsWith bad "data:" = true)
    (h2 : strip bad ≠ sentinel)
    (h3 : jsonLoads (strip (pyDrop bad 5)) = none) :
    processLine bad = .skip ∧ ∀ ls, processLines (bad :: ls) = processLines ls := by
  have hb : (strip bad != sentinel) = true := bne_iff_ne.mpr h2
  have hs : processLine bad = .skip := by
    unfold processLine
    rw [h1, hb, h3]
    simp
  exact ⟨hs, fun ls => by rw [processLines, hs]⟩

/-- C5 witness: the theorem applied to a malformed record line (a truncated
JSON payload), followed by a well-formed line that still produces its
event. -/
theorem c5_witness :
    pyStartsWith "data: \x7b\"choices\":[\x7b\"del" "data:" = true ∧
    strip "data: \x7b\"choices\":[\x7b\"del" ≠ sentinel ∧
    jsonLoads (strip (pyDrop "data: \x7b\"choices\":[\x7b\"del" 5)) = none ∧
    (processLine "data: \x7b\"choices\":[\x7b\"del" = .skip ∧
      ∀ ls, processLines ("data: \x7b\"choices\":[\x7b\"del" :: ls) = processLines ls) :=
  ⟨by decide, by decide, by rfl,
    c5_malformed_line_dropped _ (by decide) (by decide) (by rfl)⟩

/-! ## Claim C3 -/

/-- C3 counterexample: the claim states that splitting a well-formed data
record line at any byte boundary — including one isolating the terminating
newline — yields the same event sequence as delivering it whole.  The loop
in `generate_streaming_response` skips whitespace-only chunks entirely
(`if chunk.strip():`), so a split that isolates the newline leaves the line
in the carry-over buffer forever: the whole line yields a content event and
a terminal event, the split delivery yields only the terminal event. -/
theorem c3_counterexample :
    gen_events (.stream
        ["data: \x7b\"choices\":[\x7b\"delta\":\x7b\"content\":\"Fe\"\x7d\x7d]\x7d\n"] none) =
      [contentEvent (.str "Fe"), doneEvent] ∧
    gen_events (.stream
        ["data: \x7b\"choices\":[\x7b\"delta\":\x7b\"content\":\"Fe\"\x7d\x7d]\x7d", "\n"] none) =
      [doneEvent] ∧
    ([contentEvent (.str "Fe"), doneEvent] : List String) ≠ [doneEvent] :=
  ⟨by decide, by decide, by decide⟩

/-- C3 amended: for a single newline-terminated record line, any split into
fragments in which every fragment contains at least one non-whitespace
character (so none is skipped by the `if chunk.strip():` guard) produces
exactly the same event sequence as delivering the whole line as one
fragment.  This holds for any number of fragments and any byte boundaries,
including boundaries inside the JSON payload. -/
theorem c3_fragmentation_invariance (lineBody : String) (fs : List String)
    (hrec : '\n' ∉ lineBody.data)
    (hjoin : joinStr fs = lineBody ++ "\n")
    (hfs : fs ≠ [])
    (hnw : ∀ f ∈ fs, strip f ≠ "")
    (hq : strip (lineBody ++ "\n") ≠ "") :
    gen_events (.stream fs none) = gen_events (.stream [lineBody ++ "\n"] none) := by
  rcases List.eq_nil_or_concat fs with hnil | ⟨gs, g, hcat⟩
  · exact absurd hnil hfs
  rw [List.concat_eq_append] at hcat
  subst hcat
  have hgmem : g ∈ gs ++ [g] := List.mem_append_right _ (List.mem_singleton.mpr rfl)
  have hg : strip g ≠ "" := hnw g hgmem
  have hgne : g ≠ "" := fun e => hg (by rw [e]; rfl)
  have hgd : g.data ≠ [] := data_ne_nil_of_ne_empty hgne
  have hjoin' : joinStr gs ++ g = lineBody ++ "\n" := by
    rw [← hjoin, joinStr_append, joinStr, joinStr, str_append_empty]
  have hdata : (joinStr gs).data ++ g.data = lineBody.data ++ ['\n'] := by
    have h := congrArg String.data hjoin'
    rw [strData_append, strData_append] at h
    exact h
  rcases List.eq_nil_or_concat g.data with he | ⟨gd, b, hG⟩
  · exact absurd he hgd
  rw [List.concat_eq_append] at hG
  rw [hG, ← List.append_assoc] at hdata
  have h2 : b :: ((joinStr gs).data ++ gd).reverse = '\n' :: lineBody.data.reverse := by
    have h3 := congrArg List.reverse hdata
    simpa [List.reverse_append] using h3
  have hJG : (joinStr gs).data ++ gd = lineBody.data :=
    List.reverse_injective (List.cons.inj h2).2
  have hgs : ∀ f ∈ gs, '\n' ∉ f.data ∧ strip f ≠ "" := by
    intro f hf
    constructor
    · intro hm
      exact hrec (hJG ▸ List.mem_append_left _ (mem_data_joinStr hf hm))
    · exact hnw f (List.mem_append_left _ hf)
  have hnlJ : '\n' ∉ ("" : String).data := by intro h; cases h
  have hacc : streamLoop (gs ++ [g]) "" = streamLoop [g] (joinStr gs) := by
    rw [streamLoop_accum gs [g] "" hnlJ hgs, str_empty_append]
  have hBg : joinStr gs ++ g = "" ++ (lineBody ++ "\n") := by
    rw [str_empty_append]
    exact hjoin'
  have hpc : process_stream_chunk g (joinStr gs) =
      process_stream_chunk (lineBody ++ "\n") "" := process_stream_chunk_congr hBg
  have hsplit : splitNl ("" ++ (lineBody ++ "\n")) = [lineBody, ""] := by
    rw [str_empty_append]
    unfold splitNl
    have hdd : (lineBody ++ "\n").data = lineBody.data ++ '\n' :: [] := by
      rw [strData_append]
    rw [hdd, splitNlChars_append_nl hrec]
    rfl
  have hchunk : process_stream_chunk (lineBody ++ "\n") "" =
      match processLines [lineBody] with
      | .error e => .error e
      | .ok evs => .ok (evs, "") := by
    unfold process_stream_chunk
    rw [hsplit]
    rfl
  cases hres : processLines [lineBody] with
  | error e =>
    have hl : streamLoop [g] (joinStr gs) = ([], joinStr gs, some e) := by
      rw [streamLoop, if_neg hg, hpc, hchunk, hres]
    have hr : streamLoop [lineBody ++ "\n"] "" = ([], "", some e) := by
      rw [streamLoop, if_neg hq, hchunk, hres]
    rw [gen_events, gen_events, hacc, hl, hr]
  | ok evs =>
    have hl : streamLoop [g] (joinStr gs) = (evs, "", none) := by
      rw [streamLoop, if_neg hg, hpc, hchunk, hres]
      simp [streamLoop]
    have hr : streamLoop [lineBody ++ "\n"] "" = (evs, "", none) := by
      rw [streamLoop, if_neg hq, hchunk, hres]
      simp [streamLoop]
    rw [gen_events, gen_events, hacc, hl, hr]

/-- C3 witness: the amended theorem applied to the spec's content record
split at a boundary inside the JSON payload. -/
theorem c3_witness :
    ('\n' ∉ ("data: \x7b\"choices\":[\x7b\"delta\":\x7b\"content\":\"Fe\"\x7d\x7d]\x7d" : String).data) ∧
    joinStr ["data: \x7b\"choi", "ces\":[\x7b\"delta\":\x7b\"content\":\"Fe\"\x7d\x7d]\x7d\n"] =
      "data: \x7b\"choices\":[\x7b\"delta\":\x7b\"content\":\"Fe\"\x7d\x7d]\x7d" ++ "\n" ∧
    gen_events (.stream ["data: \x7b\"choi",
        "ces\":[\x7b\"delta\":\x7b\"content\":\"Fe\"\x7d\x7d]\x7d\n"] none) =
      gen_events (.stream
        ["data: \x7b\"choices\":[\x7b\"delta\":\x7b\"content\":\"Fe\"\x7d\x7d]\x7d" ++ "\n"] none) :=
  ⟨by decide, by decide,
    c3_fragmentation_invariance _ _ (by decide) (by decide) (by decide) (by decide) (by decide)⟩

/-! ## Claim C6 -/

/-- C6: for every streaming call in which a transport-level or unexpected
failure occurs — before any event or mid-stream — the output ends with
exactly one error-carrying event immediately followed by exactly one
terminal event, after which the call ends. -/
theorem c6_failure_clean_close (b : UpstreamBehavior) (h : hasFailure b = true) :
    cleanErrorClose (gen_events b) := by
  cases b with
  | statusError st body =>
    exact ⟨[], _, rfl, by intro x hx; cases hx⟩
  | stream chunks tf =>
    have hpre : ∀ x ∈ (streamLoop chunks "").1, ∀ m, x ≠ errorEvent m := by
      intro x hx m
      rcases streamLoop_shape chunks "" x hx with ⟨c, rfl⟩ | rfl
      · exact contentEvent_ne_errorEvent c m
      · exact doneEvent_ne_errorEvent m
    have h' : (tf.isSome || (streamLoop chunks "").2.2.isSome) = true := h
    cases hsl : streamLoop chunks "" with
    | mk evs rest =>
      cases rest with
      | mk buf exc =>
        have hpre' : ∀ x ∈ evs, ∀ m, x ≠ errorEvent m := by
          intro x hx
          exact hpre x (by rw [hsl]; exact hx)
        cases exc with
        | some e =>
          refine ⟨evs, "Unexpected error: " ++ e, ?_, hpre'⟩
          rw [gen_events, hsl]
        | none =>
          rw [hsl] at h'
          simp only [Option.isSome_none, Bool.or_false] at h'
          cases tf with
          | none => simp at h'
          | some e =>
            refine ⟨evs, "Unexpected error: " ++ e, ?_, hpre'⟩
            rw [gen_events, hsl]

/-- C6 witness: the theorem applied to a call where the transport fails
after one well-formed content chunk was delivered. -/
theorem c6_witness :
    hasFailure (.stream ["data: \x7b\"choices\":[\x7b\"delta\":\x7b\"content\":\"Fe\"\x7d\x7d]\x7d\n"]
      (some "timeout")) = true ∧
    cleanErrorClose (gen_events
      (.stream ["data: \x7b\"choices\":[\x7b\"delta\":\x7b\"content\":\"Fe\"\x7d\x7d]\x7d\n"]
        (some "timeout"))) :=
  ⟨by decide, c6_failure_clean_close _ (by decide)⟩

/-! ## Claim C7 -/

/-- C7: for every buffered-mode call where the upstream responds with a
non-2xx status, `raise_for_status` raises `httpx.HTTPStatusError` and the
handler re-raises an `HTTPException` carrying the exact upstream status
code and the upstream body text — not a generic failure. -/
theorem c7_status_error_surfaced (request : CompositionRequest)
    (upstream : BufferedResponse)
    (h1 : request.use_streaming = false)
    (h2 : upstream.status < 200 ∨ 300 ≤ upstream.status) :
    analyze_composition request true upstream =
      .httpError { status_code := upstream.status
                   detail := "OpenRouter API error: " ++ upstream.bodyText } := by
  have hcond : (decide (upstream.status < 200) || decide (300 ≤ upstream.status)) = true := by
    rcases h2 with h | h <;> simp [h]
  unfold analyze_composition
  rw [h1]
  simp [hcond]

/-- C7 witness: an upstream 429 with body "rate limited" surfaces with
status 429 and that body text. -/
theorem c7_witness :
    plainRequest.use_streaming = false ∧
    ((429 : Nat) < 200 ∨ (300 : Nat) ≤ 429) ∧
    analyze_composition plainRequest true ⟨429, none, "rate limited"⟩ =
      .httpError ⟨429, "OpenRouter API error: " ++ "rate limited"⟩ :=
  ⟨rfl, by decide, c7_status_error_surfaced _ _ rfl (by decide)⟩

/-! ## Claim C8 -/

/-- C8 counterexample: the claim states the advanced model is used exactly
when `spectral_type` is present.  For a record whose `spectral_type` is
present but equal to the empty string, the code's truthiness test selects
the default model, refuting the "exactly when present" biconditional. -/
theorem c8_counterexample :
    emptySpectralAsteroid.spectral_type ≠ none ∧
    select_model emptySpectralAsteroid = DEFAULT_MODEL ∧
    DEFAULT_MODEL ≠ ADVANCED_MODEL :=
  ⟨by simp [emptySpectralAsteroid], rfl, by decide⟩

/-- C8 amended: the primary model is the advanced model exactly when
`spectral_type` is present and non-empty (Python truthiness), the default
model when it is absent or empty; and the outbound payload's model list is
always the chosen primary followed by the fixed fallback model. -/
theorem c8_model_selection_policy (request : CompositionRequest)
    (upstream : BufferedResponse) (h1 : request.use_streaming = true) :
    ∃ p, analyze_composition request true upstream = .streaming p ∧
      p.models = [p.model, FALLBACK_MODEL] ∧
      ((request.asteroid.spectral_type = none ∨ request.asteroid.spectral_type = some "") →
        p.model = DEFAULT_MODEL) ∧
      (∀ s, request.asteroid.spectral_type = some s → s ≠ "" →
        p.model = ADVANCED_MODEL) := by
  refine ⟨prepare_request_payload (select_model request.asteroid) get_system_prompt
      (build_composition_prompt request.asteroid) request.use_streaming, ?_, rfl, ?_, ?_⟩
  · unfold analyze_composition
    rw [h1]
    simp
  · intro hcase
    rcases hcase with h | h <;>
      simp [prepare_request_payload, select_model, optStrTruthy, h]
  · intro s hs hne
    have : (s != "") = true := bne_iff_ne.mpr hne
    simp [prepare_request_payload, select_model, optStrTruthy, hs, this]

/-- C8 witness: the amended theorem applied to a streaming request whose
asteroid has a present, non-empty spectral type. -/
theorem c8_witness :
    (⟨⟨"A", "1", some "C", none, none, none, none, none, none, none, none⟩, true⟩ :
        CompositionRequest).use_streaming = true ∧
    (∃ p, analyze_composition
        ⟨⟨"A", "1", some "C", none, none, none, none, none, none, none, none⟩, true⟩ true
        ⟨200, none, ""⟩ = .streaming p ∧
      p.models = [p.model, FALLBACK_MODEL] ∧
      ((((⟨⟨"A", "1", some "C", none, none, none, none, none, none, none, none⟩, true⟩ :
          CompositionRequest)).asteroid.spectral_type = none ∨
        ((⟨⟨"A", "1", some "C", none, none, none, none, none, none, none, none⟩, true⟩ :
          CompositionRequest)).asteroid.spectral_type = some "") → p.model = DEFAULT_MODEL) ∧
      (∀ s, ((⟨⟨"A", "1", some "C", none, none, none, none, none, none, none, none⟩, true⟩ :
          CompositionRequest)).asteroid.spectral_type = some s → s ≠ "" →
        p.model = ADVANCED_MODEL)) := by
  refine ⟨rfl, ?_⟩
  have h := c8_model_selection_policy
    ⟨⟨"A", "1", some "C", none, none, none, none, none, none, none, none⟩, true⟩
    ⟨200, none, ""⟩ rfl
  obtain ⟨p, h1, h2, h3, h4⟩ := h
  exact ⟨p, h1, h2, h3, h4⟩

/-! ## Claim C9 -/

/-- C9 counterexample: the claim quantifies over every buffered-mode call
with a 2xx upstream response, but a 200 response whose body is
`\x7b"choices": []\x7d` makes the extraction `choices[0]` raise
`IndexError`; the generic handler turns it into a generic 500 error, so no
result record is returned for that call. -/
theorem c9_counterexample :
    analyze_composition plainRequest true
        ⟨200, some (.obj [("choices", .arr [])]), "body"⟩ =
      .httpError ⟨500, "An unexpected error occurred: IndexError"⟩ := rfl

/-- C9 amended: for every buffered-mode call where the upstream returns a
2xx response whose JSON body the extraction path `choices[0].message.content`
handles without raising — in particular whenever that path is present — the
orchestrator returns the record with the asteroid name, asteroid id, the
extracted analysis text, and the selected primary model as `model_used`. -/
theorem c9_buffered_success (request : CompositionRequest)
    (upstream : BufferedResponse) (content : Json)
    (h1 : request.use_streaming = false)
    (h2 : 200 ≤ upstream.status) (h3 : upstream.status < 300)
    (h4 : ∃ j, upstream.bodyJson = some j ∧ extract_message_content j = .ok content) :
    analyze_composition request true upstream =
      .result ⟨request.asteroid.name, request.asteroid.id, content,
        select_model request.asteroid⟩ := by
  obtain ⟨j, hj, hex⟩ := h4
  have hcond : (decide (upstream.status < 200) || decide (300 ≤ upstream.status)) = false := by
    simp only [Bool.or_eq_false_iff, decide_eq_false_iff_not, Nat.not_lt, Nat.not_le]
    exact ⟨h2, h3⟩
  unfold analyze_composition
  rw [h1]
  simp [hcond, hj, hex]

/-- C9 witness: an upstream 200 whose body carries
`choices[0].message.content = "Olivine-rich"` yields the record with
analysis "Olivine-rich" and the selected model. -/
theorem c9_witness :
    plainRequest.use_streaming = false ∧
    (200 : Nat) ≤ 200 ∧ (200 : Nat) < 300 ∧
    (∃ j, (⟨200, some (.obj [("choices",
          .arr [.obj [("message", .obj [("content", .str "Olivine-rich")])]])]), "ok"⟩ :
        BufferedResponse).bodyJson = some j ∧
      extract_message_content j = .ok (.str "Olivine-rich")) ∧
    analyze_composition plainRequest true
        ⟨200, some (.obj [("choices",
          .arr [.obj [("message", .obj [("content", .str "Olivine-rich")])]])]), "ok"⟩ =
      .result ⟨plainRequest.asteroid.name, plainRequest.asteroid.id, .str "Olivine-rich",
        select_model plainRequest.asteroid⟩ :=
  ⟨rfl, by decide, by decide,
    ⟨_, rfl, by rfl⟩,
    c9_buffered_success _ _ _ rfl (by decide) (by decide) ⟨_, rfl, by rfl⟩⟩

/-! ## Claim C10 -/

set_option maxRecDepth 8192 in
/-- C10: a `spectral_type` that is present but equal to the empty string is
treated exactly like an absent one: the default model is selected, the
generated prompt is identical to the prompt for the same record with the
field absent, and (for the concrete minimal record) no "Spectral Type" line
appears in the prompt — presence is decided by truthiness. -/
theorem c10_empty_spectral_type_like_absent :
    (∀ a : AsteroidData,
      select_model { a with spectral_type := some "" } = DEFAULT_MODEL ∧
      build_composition_prompt { a with spectral_type := some "" } =
        build_composition_prompt { a with spectral_type := none }) ∧
    hasSubstr "Spectral Type" (build_composition_prompt emptySpectralAsteroid).data = false := by
  constructor
  · intro a
    exact ⟨rfl, rfl⟩
  · decide

end AsteroidAPI
